import Mathlib

set_option linter.unusedVariables false

/- Shallow embedding of src/lambda.py, the indexer-health reconciliation
   lambda. Heights are natural numbers, deltas are integers. Network effects
   are modelled by outcome oracles: every HTTP interaction is a value of an
   outcome type, and the control flow of the Python source is translated
   branch for branch. -/

/-- Outcome of one requests.get call inside
PublicBlockExplorerHandler.get_url_and_return_height (src/lambda.py lines
33 and 41): either the call raises (read timeout, connection error, ...),
or it returns a response carrying a status code. -/
inductive AttemptOutcome where
  | raise : AttemptOutcome
  | status : Nat → AttemptOutcome
deriving DecidableEq

/-- Result of get_url_and_return_height as seen from its caller,
instrumented with the number of GET attempts issued and the number of
time.sleep(8) calls made. raised means an exception from requests.get
propagated out of the method (it is caught only by the caller in
lambda_handler); done carries the status code of the final response that
the method goes on to parse. -/
inductive FetchResult where
  | raised : Nat → Nat → FetchResult
  | done : Nat → Nat → Nat → FetchResult
deriving DecidableEq

/-- Total number of HTTP GET attempts recorded in a FetchResult. -/
def FetchResult.attemptCount : FetchResult → Nat
  | .raised a _ => a
  | .done _ a _ => a

/-- Number of time.sleep(8) calls recorded in a FetchResult. -/
def FetchResult.sleepCount : FetchResult → Nat
  | .raised _ s => s
  | .done _ _ s => s

/-- The while loop of get_url_and_return_height (src/lambda.py lines 37-47):
while status_code != 200: sleep(8); if retry_count > 4: break;
GET; retry_count += 1; if status_code >= 500: break.
The loop variable retry_count is re-parameterised as
remaining = 5 - retry_count, so that the guard retry_count > 4 becomes
remaining = 0 and the increment becomes the structural decrement; attempts
doubles as the index handed to the attempt oracle. -/
def explorerRetryLoop (att : Nat → AttemptOutcome) :
    Nat → Nat → Nat → Nat → FetchResult
  | statusCode, 0, attempts, sleeps =>
    if statusCode = 200 then .done statusCode attempts sleeps
    else .done statusCode attempts (sleeps + 1)
  | statusCode, r + 1, attempts, sleeps =>
    if statusCode = 200 then .done statusCode attempts sleeps
    else
      match att attempts with
      | .raise => .raised (attempts + 1) (sleeps + 1)
      | .status c =>
        if 500 ≤ c then .done c (attempts + 1) (sleeps + 1)
        else explorerRetryLoop att c r (attempts + 1) (sleeps + 1)

/-- PublicBlockExplorerHandler.get_url_and_return_height, src/lambda.py
lines 23-57: one initial GET (which may raise out of the method), then the
retry loop with retry_count starting at 0, i.e. remaining = 5. -/
def get_url_and_return_height (att : Nat → AttemptOutcome) : FetchResult :=
  match att 0 with
  | .raise => .raised 1 0
  | .status c => explorerRetryLoop att c 5 1 0

/-- Value of the latestBlock key written into an environment dict by
lambda_handler: one of the two sentinel strings or the numeric internal
height. -/
inductive LatestBlock where
  | noPublicURL : LatestBlock
  | imsUnresponsive : LatestBlock
  | height : Nat → LatestBlock
deriving DecidableEq

/-- The string the Python code stores for each LatestBlock value. -/
def LatestBlock.render : LatestBlock → String
  | .noPublicURL => "No Public URL"
  | .imsUnresponsive => "IMS Unresponsive"
  | .height h => toString h

/-- Value of the blocksBehind key written into an environment dict by
lambda_handler: one of the two sentinel strings, or the formatted delta
string produced at line 658 of src/lambda.py. -/
inductive BlocksBehind where
  | na : BlocksBehind
  | imsUnresponsive : BlocksBehind
  | blocksStr : Int → BlocksBehind
deriving DecidableEq

/-- The string the Python code stores for each BlocksBehind value. -/
def BlocksBehind.render : BlocksBehind → String
  | .na => "n/a"
  | .imsUnresponsive => "IMS Unresponsive"
  | .blocksStr d => toString d ++ " blocks"

/-- One environment dict of the registry embedded in lambda_handler
(src/lambda.py lines 290-581), before processing. The apiHandler field is
doubly optional: the outer layer is key presence (the key is absent from
some dicts, e.g. BCH TestNet), the inner layer is the Python value (None
for entries with no public explorer, or a handler class name). -/
structure EnvEntry where
  network : String
  bgURL : Option String
  publicURL : Option String
  apiHandler : Option (Option String)
deriving DecidableEq

/-- One environment dict after the per-entry loop of lambda_handler has
filled in status, latestBlock, referenceBlock and blocksBehind. The
configuration keys are carried along because the Python code mutates the
registry dict in place. -/
structure EnvResult where
  network : String
  bgURL : Option String
  publicURL : Option String
  apiHandler : Option (Option String)
  status : Bool
  latestBlock : LatestBlock
  referenceBlock : Option Nat
  blocksBehind : BlocksBehind
deriving DecidableEq

/-- Outcome of the internal (BitGo IMS) fetch at src/lambda.py lines
600-626: the requests.get call at line 602 raises
requests.exceptions.ConnectionError or requests.exceptions.ReadTimeout,
or it returns a body that fails json.loads, or the parsed JSON lacks the
height key, or a height is obtained. The two exception outcomes are NOT
covered by the except clause at line 605, which names
botocore.exceptions.ConnectionError (line 9) and the ReadTimeout class of
the botocore vendored copy of requests (line 8) - classes the standalone
requests library imported at line 11 never raises - so those exceptions
propagate out of the per-entry loop. -/
inductive InternalOutcome where
  | connectionError : InternalOutcome
  | readTimeout : InternalOutcome
  | badJson : InternalOutcome
  | noHeightField : InternalOutcome
  | height : Nat → InternalOutcome
deriving DecidableEq

/-- Outcome of the public-explorer fetch as seen at src/lambda.py lines
646-651: get_url_and_return_height returns a parsed height, or its parse
step hits a KeyError and the method itself returns 0 (line 552), or any
other exception escapes the method and the caller catches it and uses 0. -/
inductive PubOutcome where
  | parsedHeight : Nat → PubOutcome
  | parseKeyError : PubOutcome
  | raised : PubOutcome
deriving DecidableEq

/-- The pair of fetch outcomes one environment entry observes in a run. -/
structure EntryOutcome where
  ims : InternalOutcome
  pub : PubOutcome
deriving DecidableEq

/-- BLOCKS_BEHIND_THRESHOLD, src/lambda.py line 285. -/
def BLOCKS_BEHIND_THRESHOLD : Int := 4

/-- The public height lambda_handler ends up with on the non-Dev path:
the parsed height on success, and 0 when the parse raised KeyError inside
get_url_and_return_height (line 55) or any exception escaped it
(lines 649-651). -/
def pubHeightOf : PubOutcome → Nat
  | .parsedHeight h => h
  | .parseKeyError => 0
  | .raised => 0

/-- The Dev-tier reuse read at src/lambda.py line 644:
coin_data["environments"][1].get("referenceBlock", 0), evaluated against
the per-coin list as mutated so far. prior is the list of already processed
environment dicts of the current coin in order; an unprocessed dict never
has a referenceBlock key, so any out-of-range read defaults to 0. -/
def refAt1 (prior : List EnvResult) : Nat :=
  match prior.get? 1 with
  | some r => r.referenceBlock.getD 0
  | none => 0

/-- The IMS-unresponsive triple written at src/lambda.py lines 614-618
and 622-626: status False and both display fields set to the sentinel;
configuration keys (apiHandler included) are left in place. The dead
except clause at lines 605-609 writes the same triple but can never fire
for the exceptions the standalone requests library actually raises. -/
def imsUnresponsiveResult (e : EnvEntry) : EnvResult :=
  { network := e.network, bgURL := e.bgURL, publicURL := e.publicURL,
    apiHandler := e.apiHandler, status := false,
    latestBlock := .imsUnresponsive, referenceBlock := none,
    blocksBehind := .imsUnresponsive }

/-- The same triple written at src/lambda.py lines 630-634, after the
apiHandler key has already been popped at line 629. -/
def imsUnresponsiveResultPopped (e : EnvEntry) : EnvResult :=
  { imsUnresponsiveResult e with apiHandler := none }

/-- Lines 653-662 of src/lambda.py: set status True, latestBlock to the
internal height, referenceBlock to the public height, blocksBehind to the
formatted delta, then flip status to False when the delta exceeds
BLOCKS_BEHIND_THRESHOLD. The apiHandler key was popped at line 629. -/
def healthResult (e : EnvEntry) (h pub : Nat) : EnvResult :=
  { network := e.network, bgURL := e.bgURL, publicURL := e.publicURL,
    apiHandler := none,
    status := if BLOCKS_BEHIND_THRESHOLD < (pub : Int) - (h : Int) then false else true,
    latestBlock := .height h, referenceBlock := some pub,
    blocksBehind := .blocksStr ((pub : Int) - (h : Int)) }

/-- The body of the per-environment loop of lambda_handler (src/lambda.py
lines 591-662) for one environment dict. prior is the list of already
processed dicts of the same coin (used by the Dev reuse at line 644). The
returned Bool records whether a public-explorer HTTP call was issued. The
error cases model exceptions that escape the loop iteration: a connection
failure or timeout of the internal requests.get at line 602, which the
except clause at line 605 cannot catch because it names botocore
exception classes the standalone requests library never raises, and the
uncaught KeyError that env_data.pop("apiHandler") at line 629 raises when
the key is absent while bgURL is present. Only json.JSONDecodeError
(line 614) and the missing height key (line 622) are genuinely handled
internal failures. -/
def processEnv (prior : List EnvResult) (e : EnvEntry) (o : EntryOutcome) :
    Except String (EnvResult × Bool) :=
  match e.bgURL with
  | none =>
      .ok ({ network := e.network, bgURL := none, publicURL := e.publicURL,
             apiHandler := e.apiHandler, status := true,
             latestBlock := .noPublicURL, referenceBlock := none,
             blocksBehind := .na }, false)
  | some _ =>
    match o.ims with
    | .connectionError => .error "uncaught requests.exceptions.ConnectionError"
    | .readTimeout => .error "uncaught requests.exceptions.ReadTimeout"
    | .badJson => .ok (imsUnresponsiveResult e, false)
    | .noHeightField => .ok (imsUnresponsiveResult e, false)
    | .height h =>
      match e.apiHandler with
      | none => .error "KeyError: apiHandler"
      | some none => .ok (imsUnresponsiveResultPopped e, false)
      | some (some _) =>
        if e.network = "Dev" then
          .ok (healthResult e h (refAt1 prior), false)
        else
          .ok (healthResult e h (pubHeightOf o.pub), true)

/-- The inner for loop of lambda_handler over one coin, threading the list
of already processed environment dicts in declaration order; idx indexes
the outcome oracle. An error from processEnv aborts the whole run, exactly
as an uncaught Python exception would. -/
def runEnvsGo (oracle : Nat → EntryOutcome) :
    Nat → List (EnvResult × Bool) → List EnvEntry → Except String (List (EnvResult × Bool))
  | _, acc, [] => .ok acc
  | idx, acc, e :: rest =>
    match processEnv (acc.map Prod.fst) e (oracle idx) with
    | .error s => .error s
    | .ok rb => runEnvsGo oracle (idx + 1) (acc ++ [rb]) rest

/-- Process all environments of one coin in declaration order. -/
def runEnvs (oracle : Nat → EntryOutcome) (envs : List EnvEntry) :
    Except String (List (EnvResult × Bool)) :=
  runEnvsGo oracle 0 [] envs

/-- One coin block of the output_data dict of lambda_handler. -/
structure CoinEntry where
  symbol : String
  name : String
  icon : String
  environments : List EnvEntry
deriving DecidableEq

/-- The full registry embedded in lambda_handler, src/lambda.py lines
290-581, transcribed coin by coin. An absent key is none; an apiHandler
key holding Python None is some none; a handler class is some (some name).
The BSV symbol really does carry a trailing space in the source. -/
def theRegistry : List CoinEntry := [
  { symbol := "v1BTC", name := "v1 Bitcoin",
    icon := "https://app.bitgo.com/assets/img/icons/BTC.svg",
    environments := [
      { network := "MainNet", bgURL := some "https://www.bitgo.com/api/v1/block/latest",
        publicURL := some "https://api.blockchair.com/bitcoin/blocks?limit=1",
        apiHandler := some (some "BlockchairAPIHandler") },
      { network := "TestNet", bgURL := some "https://test.bitgo.com/api/v1/block/latest",
        publicURL := some "https://api.blockchair.com/bitcoin/testnet/blocks?limit=1",
        apiHandler := some (some "BlockchairAPIHandler") },
      { network := "Dev", bgURL := some "https://webdev.bitgo.com/api/v1/block/latest",
        publicURL := some "https://api.blockchair.com/bitcoin/testnet/blocks?limit=1",
        apiHandler := some (some "BlockchairAPIHandler") }] },
  { symbol := "BTC", name := "v2 Bitcoin",
    icon := "https://app.bitgo.com/assets/img/icons/BTC.svg",
    environments := [
      { network := "MainNet", bgURL := some "https://www.bitgo.com/api/v2/btc/public/block/latest",
        publicURL := some "https://api.blockchair.com/bitcoin/blocks?limit=1",
        apiHandler := some (some "BlockchairAPIHandler") },
      { network := "TestNet", bgURL := some "https://test.bitgo.com/api/v2/tbtc/public/block/latest",
        publicURL := some "https://api.blockchair.com/bitcoin/testnet/blocks?limit=1",
        apiHandler := some (some "BlockchairAPIHandler") },
      { network := "Dev", bgURL := some "https://webdev.bitgo.com/api/v2/tbtc/public/block/latest",
        publicURL := some "https://api.blockchair.com/bitcoin/testnet/blocks?limit=1",
        apiHandler := some (some "BlockchairAPIHandler") }] },
  { symbol := "LTC", name := "Litecoin",
    icon := "https://app.bitgo.com/assets/img/icons/LTC.svg",
    environments := [
      { network := "MainNet", bgURL := some "https://www.bitgo.com/api/v2/ltc/public/block/latest",
        publicURL := some "https://api.blockchair.com/litecoin/blocks?limit=1",
        apiHandler := some (some "BlockchairAPIHandler") },
      { network := "TestNet", bgURL := some "https://test.bitgo.com/api/v2/tltc/public/block/latest",
        publicURL := some "http://testnet.litecointools.com/status",
        apiHandler := some (some "LitecoinToolsAPIHandler") },
      { network := "Dev", bgURL := some "https://webdev.bitgo.com/api/v2/tltc/public/block/latest",
        publicURL := some "http://testnet.litecointools.com/status",
        apiHandler := some (some "LitecoinToolsAPIHandler") }] },
  { symbol := "BCH", name := "Bitcoin Cash",
    icon := "https://app.bitgo.com/assets/img/icons/BCH.svg",
    environments := [
      { network := "MainNet", bgURL := some "https://www.bitgo.com/api/v2/bch/public/block/latest",
        publicURL := some "https://api.blockchair.com/bitcoin-cash/blocks?limit=1",
        apiHandler := some (some "BlockchairAPIHandler") },
      { network := "TestNet", bgURL := none, publicURL := none, apiHandler := none },
      { network := "Dev", bgURL := none, publicURL := none, apiHandler := none }] },
  { symbol := "BSV ", name := "Bitcoin SV",
    icon := "https://app.bitgo.com/assets/img/icons/BSV.svg",
    environments := [
      { network := "MainNet", bgURL := some "https://www.bitgo.com/api/v2/bsv/public/block/latest",
        publicURL := some "https://api.blockchair.com/bitcoin-sv/blocks?limit=1",
        apiHandler := some (some "BlockchairAPIHandler") },
      { network := "TestNet", bgURL := none, publicURL := none, apiHandler := some none },
      { network := "Dev", bgURL := none, publicURL := none, apiHandler := some none }] },
  { symbol := "ETH", name := "Ethereum",
    icon := "https://app.bitgo.com/assets/img/icons/ETH.svg",
    environments := [
      { network := "MainNet", bgURL := some "https://www.bitgo.com/api/v2/eth/public/block/latest",
        publicURL := some "https://api.etherscan.io/api?module=proxy&action=eth_blockNumber",
        apiHandler := some (some "EtherscanAPIHandler") },
      { network := "TestNet", bgURL := some "https://test.bitgo.com/api/v2/teth/public/block/latest",
        publicURL := some "https://kovan.etherscan.io/api?module=proxy&action=eth_blockNumber",
        apiHandler := some (some "EtherscanAPIHandler") },
      { network := "Dev", bgURL := some "https://webdev.bitgo.com/api/v2/teth/public/block/latest",
        publicURL := some "https://kovan.etherscan.io/api?module=proxy&action=eth_blockNumber",
        apiHandler := some (some "EtherscanAPIHandler") }] },
  { symbol := "DASH", name := "Dash",
    icon := "https://app.bitgo.com/assets/img/icons/DASH.svg",
    environments := [
      { network := "MainNet", bgURL := some "https://www.bitgo.com/api/v2/dash/public/block/latest",
        publicURL := some "https://chainz.cryptoid.info/explorer/index.data.dws?coin=dash&n=1",
        apiHandler := some (some "CryptoidAPIHandler") },
      { network := "TestNet", bgURL := some "https://test.bitgo.com/api/v2/tdash/public/block/latest",
        publicURL := some "https://testnet-insight.dashevo.org/insight-api/blocks",
        apiHandler := some (some "InsightAPIHandler") },
      { network := "Dev", bgURL := some "https://webdev.bitgo.com/api/v2/tdash/public/block/latest",
        publicURL := some "https://testnet-insight.dashevo.org/insight-api/blocks",
        apiHandler := some (some "InsightAPIHandler") }] },
  { symbol := "ZEC", name := "ZCash",
    icon := "https://app.bitgo.com/assets/img/icons/ZEC.svg",
    environments := [
      { network := "MainNet", bgURL := some "https://www.bitgo.com/api/v2/zec/public/block/latest",
        publicURL := some "https://api.zcha.in/v2/mainnet/network",
        apiHandler := some (some "ZchaApiHandler") },
      { network := "TestNet", bgURL := none, publicURL := none, apiHandler := some none },
      { network := "Dev", bgURL := none, publicURL := none, apiHandler := some none }] },
  { symbol := "XRP", name := "Ripple",
    icon := "https://app.bitgo.com/assets/img/icons/XRP.svg",
    environments := [
      { network := "MainNet", bgURL := some "https://www.bitgo.com/api/v2/xrp/public/block/latest",
        publicURL := some "https://data.ripple.com/v2/ledgers/",
        apiHandler := some (some "RippleAPIHandler") },
      { network := "TestNet", bgURL := some "https://test.bitgo.com/api/v2/txrp/public/block/latest",
        publicURL := none, apiHandler := some none },
      { network := "Dev", bgURL := some "https://webdev.bitgo.com/api/v2/txrp/public/block/latest",
        publicURL := none, apiHandler := some none }] },
  { symbol := "XLM", name := "Stellar",
    icon := "https://app.bitgo.com/assets/img/icons/XLM.svg",
    environments := [
      { network := "MainNet", bgURL := some "https://www.bitgo.com/api/v2/xlm/public/block/latest",
        publicURL := some "https://horizon.stellar.org/ledgers?order=desc",
        apiHandler := some (some "StellarAPIHandler") },
      { network := "TestNet", bgURL := some "https://test.bitgo.com/api/v2/txlm/public/block/latest",
        publicURL := some "https://horizon-testnet.stellar.org/ledgers?order=desc",
        apiHandler := some (some "StellarAPIHandler") },
      { network := "Dev", bgURL := some "https://webdev.bitgo.com/api/v2/txlm/public/block/latest",
        publicURL := some "https://horizon-testnet.stellar.org/ledgers?order=desc",
        apiHandler := some (some "StellarAPIHandler") }] },
  { symbol := "ALGO", name := "Algorand",
    icon := "https://app.bitgo.com/assets/img/icons/ALGO.svg",
    environments := [
      { network := "MainNet", bgURL := some "https://www.bitgo.com/api/v2/algo/public/block/latest",
        publicURL := some "https://api.algoexplorer.io/v1/block/latest/1",
        apiHandler := some (some "AlgoExplorerAPIHandler") },
      { network := "TestNet", bgURL := some "https://test.bitgo.com/api/v2/talgo/public/block/latest",
        publicURL := some "https://api.testnet.algoexplorer.io/v1/block/latest/1",
        apiHandler := some (some "AlgoExplorerAPIHandler") },
      { network := "Dev", bgURL := some "https://webdev.bitgo.com/api/v2/talgo/public/block/latest",
        publicURL := some "https://api.testnet.algoexplorer.io/v1/block/latest/1",
        apiHandler := some (some "AlgoExplorerAPIHandler") }] },
  { symbol := "EOS", name := "EOS",
    icon := "https://app.bitgo.com/assets/img/icons/EOS.svg",
    environments := [
      { network := "MainNet", bgURL := some "https://www.bitgo.com/api/v2/eos/public/block/latest",
        publicURL := some "https://bp.cryptolions.io/v1/chain/get_info",
        apiHandler := some (some "EOSAPIHander") },
      { network := "TestNet", bgURL := some "https://test.bitgo.com/api/v2/teos/public/block/latest",
        publicURL := some "http://jungle2.cryptolions.io/v1/chain/get_info",
        apiHandler := some (some "EOSAPIHander") },
      { network := "Dev", bgURL := some "https://webdev.bitgo.com/api/v2/teos/public/block/latest",
        publicURL := some "http://jungle2.cryptolions.io/v1/chain/get_info",
        apiHandler := some (some "EOSAPIHander") }] },
  { symbol := "TRX", name := "TRX",
    icon := "https://app.bitgo.com/assets/img/icons/TRX.svg",
    environments := [
      { network := "MainNet", bgURL := some "https://www.bitgo.com/api/v2/trx/public/block/latest",
        publicURL := some "https://apilist.tronscan.org/api/system/status",
        apiHandler := some (some "TronAPIHandler") },
      { network := "TestNet", bgURL := some "https://test.bitgo.com/api/v2/ttrx/public/block/latest",
        publicURL := some "https://api.shasta.tronscan.org/api/system/status",
        apiHandler := some (some "TronAPIHandler") },
      { network := "Dev", bgURL := some "https://webdev.bitgo.com/api/v2/ttrx/public/block/latest",
        publicURL := some "https://api.shasta.tronscan.org/api/system/status",
        apiHandler := some (some "TronAPIHandler") }] }]

/-- The outer for loop of lambda_handler over all coins; the oracle is
indexed by coin position then environment position. -/
def runCoinsGo (oracle : Nat → Nat → EntryOutcome) :
    Nat → List CoinEntry → Except String (List (String × List (EnvResult × Bool)))
  | _, [] => .ok []
  | i, c :: rest =>
    match runEnvs (oracle i) c.environments with
    | .error s => .error s
    | .ok l =>
      match runCoinsGo oracle (i + 1) rest with
      | .error s => .error s
      | .ok ls => .ok ((c.symbol, l) :: ls)

/-- One full run of the per-entry loops of lambda_handler over the embedded
registry, for an arbitrary assignment of fetch outcomes. -/
def runRegistry (oracle : Nat → Nat → EntryOutcome) :
    Except String (List (String × List (EnvResult × Bool))) :=
  runCoinsGo oracle 0 theRegistry

/-- The serialisation cleanup at src/lambda.py lines 664-669: pop the
apiHandler key (when still present) and nothing else. -/
def scrub (r : EnvResult) : EnvResult :=
  { r with apiHandler := none }

/-- An S3 put_object call as issued at src/lambda.py lines 686-692. -/
structure S3Put where
  key : String
  acl : String
  contentType : String
  body : List (String × List EnvResult)
deriving DecidableEq

/-- The two put_object calls of lambda_handler (lines 691-692): the
timestamped key and latest.json, identical bodies, both public-read JSON. -/
def publishCalls (datedKey : String) (body : List (String × List EnvResult)) : List S3Put :=
  [{ key := datedKey, acl := "public-read", contentType := "application/json", body := body },
   { key := "latest.json", acl := "public-read", contentType := "application/json", body := body }]

/-- Claim C1: for every registry entry where both the internal height and
the public reference height are concretely known, the classification is
decided exactly by the threshold comparison of src/lambda.py lines 653-662:
delta = reference minus internal is at most the threshold (4) gives status
True (Healthy), a strictly greater delta gives status False (Degraded) with
blocksBehind reporting exactly that delta, and a negative delta (internal
ahead of the reference) is always Healthy. -/
theorem c1_threshold_classification (e : EnvEntry) (prior : List EnvResult)
    (u cls : String) (i pubH : Nat)
    (h1 : e.bgURL = some u) (h2 : e.apiHandler = some (some cls))
    (h3 : e.network ≠ "Dev") :
    processEnv prior e ⟨.height i, .parsedHeight pubH⟩ = .ok (healthResult e i pubH, true) ∧
    ∀ (h pub : Nat),
      ((pub : Int) - (h : Int) ≤ BLOCKS_BEHIND_THRESHOLD → (healthResult e h pub).status = true) ∧
      (BLOCKS_BEHIND_THRESHOLD < (pub : Int) - (h : Int) →
        (healthResult e h pub).status = false ∧
        (healthResult e h pub).blocksBehind = .blocksStr ((pub : Int) - (h : Int))) ∧
      ((pub : Int) < (h : Int) → (healthResult e h pub).status = true) ∧
      (healthResult e h pub).latestBlock = .height h ∧
      (healthResult e h pub).referenceBlock = some pub := by
  constructor
  · simp [processEnv, h1, h2, h3, pubHeightOf]
  · intro h pub
    refine ⟨?_, ?_, ?_, rfl, rfl⟩
    · intro hle
      simp only [healthResult, BLOCKS_BEHIND_THRESHOLD] at *
      rw [if_neg (by omega)]
    · intro hgt
      exact ⟨by simp only [healthResult]; rw [if_pos hgt], rfl⟩
    · intro hlt
      simp only [healthResult, BLOCKS_BEHIND_THRESHOLD] at *
      rw [if_neg (by omega)]

/-- Witness for c1_threshold_classification: the spec scenario with
internal height 100 and reference height 104 under threshold 4. -/
theorem c1_threshold_classification_witness :
    processEnv [] ⟨"MainNet", some "https://www.bitgo.com/api/v2/xlm/public/block/latest",
        some "https://horizon.stellar.org/ledgers?order=desc", some (some "StellarAPIHandler")⟩
        ⟨.height 100, .parsedHeight 104⟩
      = .ok (healthResult ⟨"MainNet", some "https://www.bitgo.com/api/v2/xlm/public/block/latest",
          some "https://horizon.stellar.org/ledgers?order=desc",
          some (some "StellarAPIHandler")⟩ 100 104, true) :=
  (c1_threshold_classification _ [] _ _ 100 104 rfl rfl (by decide)).1

/-- Counterexample to claim C2: at a concrete entry whose public-explorer
response is unparseable (KeyError inside get_url_and_return_height) and
whose internal fetch returned height 100, the code classifies with the
default reference height 0 and produces status True - observably Healthy,
not Unknown - with the numeric delta string for minus 100 blocks. The
parse failure is therefore conflated with a reference height of zero,
which the claim says never happens. -/
theorem c2_unknown_on_pub_failure_counterexample :
    processEnv [] ⟨"TestNet", some "https://test.bitgo.com/api/v2/txlm/public/block/latest",
        some "https://horizon-testnet.stellar.org/ledgers?order=desc",
        some (some "StellarAPIHandler")⟩ ⟨.height 100, .parseKeyError⟩
      = .ok ({ network := "TestNet",
               bgURL := some "https://test.bitgo.com/api/v2/txlm/public/block/latest",
               publicURL := some "https://horizon-testnet.stellar.org/ledgers?order=desc",
               apiHandler := none, status := true, latestBlock := .height 100,
               referenceBlock := some 0, blocksBehind := .blocksStr (-100) }, true) := rfl

/-- Claim C2 as amended: whenever the public-explorer fetch fails (either
its parse step raises KeyError, making the method return 0, or any other
exception escapes it and the caller substitutes 0), the entry is NOT set
to an Unknown state: the reference height is treated as 0 and the normal
threshold comparison runs, yielding status True (Healthy, since 0 minus a
natural height never exceeds the threshold), referenceBlock 0 and a
blocksBehind of 0 minus the internal height; the internal height is still
reported as latestBlock. -/
theorem c2_pub_failure_amended (e : EnvEntry) (prior : List EnvResult)
    (u cls : String) (i : Nat) (po : PubOutcome)
    (h1 : e.bgURL = some u) (h2 : e.apiHandler = some (some cls))
    (h3 : e.network ≠ "Dev")
    (h4 : po = .parseKeyError ∨ po = .raised) :
    processEnv prior e ⟨.height i, po⟩ = .ok (healthResult e i 0, true) ∧
    (healthResult e i 0).status = true ∧
    (healthResult e i 0).latestBlock = .height i ∧
    (healthResult e i 0).referenceBlock = some 0 ∧
    (healthResult e i 0).blocksBehind = .blocksStr (0 - (i : Int)) := by
  refine ⟨?_, ?_, rfl, rfl, rfl⟩
  · rcases h4 with h | h <;> subst h <;> simp [processEnv, h1, h2, h3, pubHeightOf]
  · simp only [healthResult, BLOCKS_BEHIND_THRESHOLD]
    rw [if_neg (by omega)]

/-- Witness for c2_pub_failure_amended: a concrete entry with internal
height 100 and a raised public fetch. -/
theorem c2_pub_failure_amended_witness :
    processEnv [] ⟨"MainNet", some "https://www.bitgo.com/api/v2/eth/public/block/latest",
        some "https://api.etherscan.io/api?module=proxy&action=eth_blockNumber",
        some (some "EtherscanAPIHandler")⟩ ⟨.height 100, .raised⟩
      = .ok (healthResult ⟨"MainNet", some "https://www.bitgo.com/api/v2/eth/public/block/latest",
          some "https://api.etherscan.io/api?module=proxy&action=eth_blockNumber",
          some (some "EtherscanAPIHandler")⟩ 100 0, true) :=
  (c2_pub_failure_amended _ [] _ _ 100 .raised rfl rfl (by decide) (Or.inr rfl)).1

/-- Counterexample to claim C3: the BCH TestNet entry has no bgURL key;
the code (src/lambda.py lines 593-598) sets status True - its own healthy
flag, not an Unknown state - and the strings are "No Public URL" and
"n/a", not the reason "no internal endpoint configured" stated by the
claim. -/
theorem c3_no_bgurl_counterexample :
    processEnv [] ⟨"TestNet", none, none, none⟩ ⟨.height 100, .parsedHeight 999⟩
      = .ok ({ network := "TestNet", bgURL := none, publicURL := none, apiHandler := none,
               status := true, latestBlock := .noPublicURL, referenceBlock := none,
               blocksBehind := .na }, false) ∧
    LatestBlock.render .noPublicURL = "No Public URL" ∧
    BlocksBehind.render .na = "n/a" := ⟨rfl, rfl, rfl⟩

/-- Claim C3 as amended: for every registry entry with no bgURL key the
result is always the fixed triple status True, latestBlock "No Public
URL", blocksBehind "n/a", regardless of the state of any public endpoint
or fetch outcome. -/
theorem c3_no_bgurl_amended (e : EnvEntry) (prior : List EnvResult) (o : EntryOutcome)
    (h : e.bgURL = none) :
    processEnv prior e o
      = .ok ({ network := e.network, bgURL := none, publicURL := e.publicURL,
               apiHandler := e.apiHandler, status := true,
               latestBlock := .noPublicURL, referenceBlock := none,
               blocksBehind := .na }, false) := by
  simp [processEnv, h]

/-- Witness for c3_no_bgurl_amended: the BCH TestNet entry under a failing
outcome pair. -/
theorem c3_no_bgurl_amended_witness :
    processEnv [] ⟨"TestNet", none, none, none⟩ ⟨.connectionError, .raised⟩
      = .ok ({ network := "TestNet", bgURL := none, publicURL := none,
               apiHandler := none, status := true, latestBlock := .noPublicURL,
               referenceBlock := none, blocksBehind := .na }, false) :=
  c3_no_bgurl_amended ⟨"TestNet", none, none, none⟩ [] ⟨.connectionError, .raised⟩ rfl

/-- Counterexample to claim C4: the XRP TestNet entry has a bgURL but its
apiHandler is None (no public reference). With a successful internal fetch
at height 100 the code (src/lambda.py lines 630-634) reports latestBlock
"IMS Unresponsive" - the internal height 100 is NOT reported - and the
reason strings are "IMS Unresponsive", not "no public reference
available". -/
theorem c4_no_public_reference_counterexample :
    processEnv [] ⟨"TestNet", some "https://test.bitgo.com/api/v2/txrp/public/block/latest",
        none, some none⟩ ⟨.height 100, .raised⟩
      = .ok ({ network := "TestNet",
               bgURL := some "https://test.bitgo.com/api/v2/txrp/public/block/latest",
               publicURL := none, apiHandler := none, status := false,
               latestBlock := .imsUnresponsive, referenceBlock := none,
               blocksBehind := .imsUnresponsive }, false) ∧
    LatestBlock.render .imsUnresponsive = "IMS Unresponsive" := ⟨rfl, rfl⟩

/-- Claim C4 as amended: for every entry whose internal fetch succeeds but
whose apiHandler is None (no public reference configured), the result is
status False with both latestBlock and blocksBehind set to the sentinel
"IMS Unresponsive"; the successfully fetched internal height is not
reported at all. -/
theorem c4_no_public_reference_amended (e : EnvEntry) (prior : List EnvResult)
    (u : String) (i : Nat) (po : PubOutcome)
    (h1 : e.bgURL = some u) (h2 : e.apiHandler = some none) :
    processEnv prior e ⟨.height i, po⟩ = .ok (imsUnresponsiveResultPopped e, false) ∧
    (imsUnresponsiveResultPopped e).status = false ∧
    (imsUnresponsiveResultPopped e).latestBlock = .imsUnresponsive ∧
    (imsUnresponsiveResultPopped e).blocksBehind = .imsUnresponsive ∧
    ∀ hh : Nat, (imsUnresponsiveResultPopped e).latestBlock ≠ .height hh := by
  refine ⟨?_, rfl, rfl, rfl, ?_⟩
  · simp [processEnv, h1, h2]
  · intro hh
    simp [imsUnresponsiveResultPopped, imsUnresponsiveResult]

/-- Witness for c4_no_public_reference_amended: the XRP Dev entry with a
successful internal fetch at height 7. -/
theorem c4_no_public_reference_amended_witness :
    processEnv [] ⟨"Dev", some "https://webdev.bitgo.com/api/v2/txrp/public/block/latest",
        none, some none⟩ ⟨.height 7, .parsedHeight 9⟩
      = .ok (imsUnresponsiveResultPopped ⟨"Dev",
          some "https://webdev.bitgo.com/api/v2/txrp/public/block/latest",
          none, some none⟩, false) :=
  (c4_no_public_reference_amended _ [] _ 7 (.parsedHeight 9) rfl rfl).1

/-- Claim C5 is the intended behaviour but the code misses it for two of
the four failure kinds: the except clause at src/lambda.py line 605 names
botocore.exceptions.ConnectionError and the botocore vendored ReadTimeout,
classes the standalone requests library used at line 602 never raises, so
an internal connection failure or read timeout propagates uncaught and
aborts the run instead of producing the sentinel result its own comment
(lines 603-604, consider it down and alert the status) promises. At the
BTC MainNet entry: a connection failure or timeout yields the run-aborting
error, while the two genuinely caught failures (unparseable body, missing
height key) do yield the Unknown shape with the fixed string sentinel. -/
theorem c5_internal_failure_code_bug :
    processEnv [] ⟨"MainNet", some "https://www.bitgo.com/api/v2/btc/public/block/latest",
        some "https://api.blockchair.com/bitcoin/blocks?limit=1",
        some (some "BlockchairAPIHandler")⟩ ⟨.connectionError, .raised⟩
      = .error "uncaught requests.exceptions.ConnectionError" ∧
    processEnv [] ⟨"MainNet", some "https://www.bitgo.com/api/v2/btc/public/block/latest",
        some "https://api.blockchair.com/bitcoin/blocks?limit=1",
        some (some "BlockchairAPIHandler")⟩ ⟨.readTimeout, .raised⟩
      = .error "uncaught requests.exceptions.ReadTimeout" ∧
    processEnv [] ⟨"MainNet", some "https://www.bitgo.com/api/v2/btc/public/block/latest",
        some "https://api.blockchair.com/bitcoin/blocks?limit=1",
        some (some "BlockchairAPIHandler")⟩ ⟨.badJson, .raised⟩
      = .ok (imsUnresponsiveResult ⟨"MainNet",
          some "https://www.bitgo.com/api/v2/btc/public/block/latest",
          some "https://api.blockchair.com/bitcoin/blocks?limit=1",
          some (some "BlockchairAPIHandler")⟩, false) ∧
    processEnv [] ⟨"MainNet", some "https://www.bitgo.com/api/v2/btc/public/block/latest",
        some "https://api.blockchair.com/bitcoin/blocks?limit=1",
        some (some "BlockchairAPIHandler")⟩ ⟨.noHeightField, .raised⟩
      = .ok (imsUnresponsiveResult ⟨"MainNet",
          some "https://www.bitgo.com/api/v2/btc/public/block/latest",
          some "https://api.blockchair.com/bitcoin/blocks?limit=1",
          some (some "BlockchairAPIHandler")⟩, false) ∧
    BlocksBehind.render (imsUnresponsiveResult ⟨"MainNet",
        some "https://www.bitgo.com/api/v2/btc/public/block/latest",
        some "https://api.blockchair.com/bitcoin/blocks?limit=1",
        some (some "BlockchairAPIHandler")⟩).blocksBehind = "IMS Unresponsive" :=
  ⟨rfl, rfl, rfl, rfl, rfl⟩

/-- Helper: the retry loop issues at most remaining further GET attempts on
top of the attempts already counted. -/
theorem explorerRetryLoop_attempts_le (att : Nat → AttemptOutcome) :
    ∀ (r s a sl : Nat), (explorerRetryLoop att s r a sl).attemptCount ≤ a + r := by
  intro r
  induction r with
  | zero =>
    intro s a sl
    by_cases h : s = 200 <;> simp [explorerRetryLoop, h, FetchResult.attemptCount]
  | succ n ih =>
    intro s a sl
    by_cases h : s = 200
    · simp [explorerRetryLoop, h, FetchResult.attemptCount]
    · rw [explorerRetryLoop, if_neg h]
      cases hat : att a with
      | raise =>
        simp [FetchResult.attemptCount]
      | status c =>
        by_cases h5 : 500 ≤ c
        · simp [h5, FetchResult.attemptCount]
        · simp only [h5, if_false]
          have := ih c (a + 1) (sl + 1)
          omega

/-- Helper: if the initial response is not 200, the first k retried
responses are neither 200 nor server errors, and the retry number k
(zero-based, k below the remaining budget) returns a server error status
c, then the loop stops right after that attempt: exactly k+1 further GETs
and k+1 further sleeps. -/
theorem explorerRetryLoop_stops_on_retry_500 (att : Nat → AttemptOutcome) :
    ∀ (k r s a sl c : Nat), s ≠ 200 → k < r →
      (∀ i, i < k → ∃ ci, att (a + i) = .status ci ∧ ci ≠ 200 ∧ ci < 500) →
      att (a + k) = .status c → 500 ≤ c →
      explorerRetryLoop att s r a sl = .done c (a + k + 1) (sl + k + 1) := by
  intro k
  induction k with
  | zero =>
    intro r s a sl c hs hkr hmid hk h5
    obtain ⟨r2, rfl⟩ : ∃ r2, r = r2 + 1 := ⟨r - 1, by omega⟩
    rw [Nat.add_zero] at hk
    simp [explorerRetryLoop, hs, hk, h5]
  | succ n ih =>
    intro r s a sl c hs hkr hmid hk h5
    obtain ⟨c0, hc0, hc0ne, hc0lt⟩ := hmid 0 (Nat.succ_pos n)
    rw [Nat.add_zero] at hc0
    obtain ⟨r2, rfl⟩ : ∃ r2, r = r2 + 1 := ⟨r - 1, by omega⟩
    have hstep : explorerRetryLoop att s (r2 + 1) a sl
        = explorerRetryLoop att c0 r2 (a + 1) (sl + 1) := by
      rw [explorerRetryLoop, if_neg hs, hc0]
      dsimp only
      rw [if_neg (by omega)]
    rw [hstep]
    have hmid2 : ∀ i, i < n → ∃ ci, att (a + 1 + i) = .status ci ∧ ci ≠ 200 ∧ ci < 500 := by
      intro i hi
      obtain ⟨ci, hci1, hci2, hci3⟩ := hmid (i + 1) (by omega)
      refine ⟨ci, ?_, hci2, hci3⟩
      rw [show a + 1 + i = a + (i + 1) by omega]
      exact hci1
    have hk2 : att (a + 1 + n) = .status c := by
      rw [show a + 1 + n = a + (n + 1) by omega]
      exact hk
    have hfin := ih r2 c0 (a + 1) (sl + 1) c hc0ne (by omega) hmid2 hk2 h5
    rw [hfin]
    congr 1 <;> omega

/-- Counterexample to claim C6: against an endpoint that persistently
returns 404 (a non-2xx, non-5xx failure) one invocation of
get_url_and_return_height issues SIX HTTP attempts - one initial GET plus
five retries - not the at-most-five total the claim states, before
returning the final failed response for parsing. -/
theorem c6_retry_bound_counterexample :
    get_url_and_return_height (fun _ => .status 404) = .done 404 6 6 ∧
    (get_url_and_return_height (fun _ => .status 404)).attemptCount = 6 := ⟨rfl, rfl⟩

/-- Claim C6 as amended: a single get_url_and_return_height invocation
issues at most 6 total HTTP attempts (one initial attempt plus at most 5
retries, with one time.sleep(8) backoff before each retry); an endpoint
that always times out makes the method raise after exactly one attempt
with no retries and no sleeps, the exception being contained by the
caller in lambda_handler (external height treated as 0) rather than
becoming an unhandled fault of the run. -/
theorem c6_retry_bound_amended :
    (∀ att, (get_url_and_return_height att).attemptCount ≤ 6) ∧
    get_url_and_return_height (fun _ => .raise) = .raised 1 0 := by
  constructor
  · intro att
    unfold get_url_and_return_height
    cases h : att 0 with
    | raise => simp [FetchResult.attemptCount]
    | status c =>
      simp only
      have := explorerRetryLoop_attempts_le att 5 c 1 0
      omega
  · rfl

/-- Counterexample to claim C7: a server error status on the INITIAL
response does not terminate the retry loop - the 500-check at src/lambda.py
line 46 only inspects retried responses. With an initial 500 followed by
persistent 404s, the loop runs to the full bound of 6 attempts even though
a response carried a server error status, so it does not terminate early
whenever "a response" carries a status of 500 or more. -/
theorem c7_server_error_counterexample :
    get_url_and_return_height (fun n => if n = 0 then .status 500 else .status 404)
      = .done 404 6 6 := rfl

/-- Claim C7 as amended: whenever a RETRIED request (not the initial one)
returns a server error status of 500 or more, the retry loop terminates
immediately after that attempt with no further attempts: if the initial
response is a non-200 status, the first k retries return non-200 non-5xx
statuses and retry k returns status c with 500 or more, the whole
invocation performs exactly k+2 attempts and k+1 sleeps and returns that
response. A server error on the initial attempt does not by itself
terminate the loop. -/
theorem c7_server_error_amended (att : Nat → AttemptOutcome) (k s0 c : Nat)
    (h0 : att 0 = .status s0) (hs0 : s0 ≠ 200) (hk5 : k < 5)
    (hmid : ∀ i, i < k → ∃ ci, att (1 + i) = .status ci ∧ ci ≠ 200 ∧ ci < 500)
    (hc : att (1 + k) = .status c) (h5 : 500 ≤ c) :
    get_url_and_return_height att = .done c (k + 2) (k + 1) := by
  unfold get_url_and_return_height
  rw [h0]
  show explorerRetryLoop att s0 5 1 0 = .done c (k + 2) (k + 1)
  have hfin := explorerRetryLoop_stops_on_retry_500 att k 5 s0 1 0 c hs0 hk5 hmid hc h5
  rw [hfin]
  congr 1 <;> omega

/-- Witness for c7_server_error_amended: initial 404, first retry 503 -
two attempts total, stopped well before the six-attempt bound. -/
theorem c7_server_error_amended_witness :
    get_url_and_return_height (fun n => if n = 0 then .status 404 else .status 503)
      = .done 503 2 1 :=
  c7_server_error_amended (fun n => if n = 0 then .status 404 else .status 503)
    0 404 503 rfl (by decide) (by omega)
    (fun i hi => absurd hi (by omega)) rfl (by omega)

/-- Claim C8: when the TestNet entry of a coin (at index 1 of its
environments list) has already been processed earlier in iteration order
and computed a reference height H, the Dev entry of the same coin (with a
working internal fetch and a configured handler) reports referenceBlock H
via the positional reuse at src/lambda.py line 644 and issues no public
HTTP call of its own (the returned flag is false), while the first two
entries are processed before it, in declaration order. -/
theorem c8_dev_reuse (m t d : EnvEntry) (oracle : Nat → EntryOutcome)
    (r0 r1 : EnvResult) (b0 b1 : Bool) (H i : Nat) (u cls : String)
    (h0 : processEnv [] m (oracle 0) = .ok (r0, b0))
    (h1 : processEnv [r0] t (oracle 1) = .ok (r1, b1))
    (href : r1.referenceBlock = some H)
    (hd : d.network = "Dev") (hb : d.bgURL = some u) (ha : d.apiHandler = some (some cls))
    (hi : (oracle 2).ims = .height i) :
    runEnvs oracle [m, t, d] = .ok [(r0, b0), (r1, b1), (healthResult d i H, false)] ∧
    (healthResult d i H).referenceBlock = some H := by
  refine ⟨?_, rfl⟩
  have h2 : processEnv [r0, r1] d (oracle 2) = .ok (healthResult d i H, false) := by
    rcases hor : oracle 2 with ⟨oi, oe⟩
    rw [hor] at hi
    change oi = InternalOutcome.height i at hi
    subst hi
    simp [processEnv, hb, ha, hd, refAt1, href]
  simp [runEnvs, runEnvsGo, h0, h1, h2]

/-- Witness for c8_dev_reuse: a three-environment coin where the TestNet
entry computes reference height 1000 and the Dev entry (internal height
998) reuses it with no public call. -/
theorem c8_dev_reuse_witness :
    runEnvs (fun k => if k = 0 then ⟨.height 50, .parsedHeight 52⟩
        else if k = 1 then ⟨.height 100, .parsedHeight 1000⟩
        else ⟨.height 998, .raised⟩)
      [⟨"MainNet", some "im", some "pm", some (some "HandlerA")⟩,
       ⟨"TestNet", some "it", some "pt", some (some "HandlerB")⟩,
       ⟨"Dev", some "id", some "pt", some (some "HandlerB")⟩]
      = .ok [(healthResult ⟨"MainNet", some "im", some "pm", some (some "HandlerA")⟩ 50 52, true),
             (healthResult ⟨"TestNet", some "it", some "pt", some (some "HandlerB")⟩ 100 1000, true),
             (healthResult ⟨"Dev", some "id", some "pt", some (some "HandlerB")⟩ 998 1000, false)] :=
  (c8_dev_reuse
    ⟨"MainNet", some "im", some "pm", some (some "HandlerA")⟩
    ⟨"TestNet", some "it", some "pt", some (some "HandlerB")⟩
    ⟨"Dev", some "id", some "pt", some (some "HandlerB")⟩
    (fun k => if k = 0 then ⟨.height 50, .parsedHeight 52⟩
        else if k = 1 then ⟨.height 100, .parsedHeight 1000⟩
        else ⟨.height 998, .raised⟩)
    (healthResult ⟨"MainNet", some "im", some "pm", some (some "HandlerA")⟩ 50 52)
    (healthResult ⟨"TestNet", some "it", some "pt", some (some "HandlerB")⟩ 100 1000)
    true true 1000 998 "id" "HandlerB"
    rfl rfl rfl rfl rfl rfl rfl).1

/-- Claim C9 is the intended invariant but the code breaks it: the except
clause at src/lambda.py line 605 cannot catch the connection failures and
read timeouts the standalone requests library raises from the internal GET
at line 602 (it names botocore exception classes instead), so such an
exception escapes the per-entry loop and aborts the whole run before
anything is published. Under total fetch failure (every internal GET
refuses the connection) the run over the embedded registry aborts at its
very first entry and yields no results at all, rather than one
reconciliation result per registry entry. -/
theorem c9_run_abort_code_bug :
    runRegistry (fun _ _ => ⟨.connectionError, .raised⟩)
      = .error "uncaught requests.exceptions.ConnectionError" ∧
    runRegistry (fun _ _ => ⟨.readTimeout, .raised⟩)
      = .error "uncaught requests.exceptions.ReadTimeout" := ⟨rfl, rfl⟩

/-- Helper: every branch of processEnv copies the configuration keys
network, bgURL and publicURL of the entry into the result unchanged. -/
theorem processEnv_preserves_config (e : EnvEntry) (prior : List EnvResult) (o : EntryOutcome)
    (r : EnvResult) (b : Bool) (h : processEnv prior e o = .ok (r, b)) :
    r.network = e.network ∧ r.bgURL = e.bgURL ∧ r.publicURL = e.publicURL := by
  obtain ⟨n, bg, p, a⟩ := e
  obtain ⟨oi, oe⟩ := o
  cases bg with
  | none =>
    simp only [processEnv, Except.ok.injEq, Prod.mk.injEq] at h
    obtain ⟨hr, -⟩ := h
    subst hr
    exact ⟨rfl, rfl, rfl⟩
  | some u =>
    cases oi with
    | connectionError => simp [processEnv] at h
    | readTimeout => simp [processEnv] at h
    | badJson =>
      simp only [processEnv, Except.ok.injEq, Prod.mk.injEq] at h
      obtain ⟨hr, -⟩ := h
      subst hr
      exact ⟨rfl, rfl, rfl⟩
    | noHeightField =>
      simp only [processEnv, Except.ok.injEq, Prod.mk.injEq] at h
      obtain ⟨hr, -⟩ := h
      subst hr
      exact ⟨rfl, rfl, rfl⟩
    | height hh =>
      cases a with
      | none => simp [processEnv] at h
      | some v =>
        cases v with
        | none =>
          simp only [processEnv, Except.ok.injEq, Prod.mk.injEq] at h
          obtain ⟨hr, -⟩ := h
          subst hr
          exact ⟨rfl, rfl, rfl⟩
        | some cls =>
          by_cases hn : n = "Dev"
          · have hred : processEnv prior ⟨n, some u, p, some (some cls)⟩
                  ⟨InternalOutcome.height hh, oe⟩
                = .ok (healthResult ⟨n, some u, p, some (some cls)⟩ hh (refAt1 prior), false) := by
              simp [processEnv, hn]
            rw [hred, Except.ok.injEq, Prod.mk.injEq] at h
            obtain ⟨hr, -⟩ := h
            subst hr
            exact ⟨rfl, rfl, rfl⟩
          · have hred : processEnv prior ⟨n, some u, p, some (some cls)⟩
                  ⟨InternalOutcome.height hh, oe⟩
                = .ok (healthResult ⟨n, some u, p, some (some cls)⟩ hh (pubHeightOf oe), true) := by
              simp [processEnv, hn]
            rw [hred, Except.ok.injEq, Prod.mk.injEq] at h
            obtain ⟨hr, -⟩ := h
            subst hr
            exact ⟨rfl, rfl, rfl⟩

/-- Claim C10: before serialisation only the apiHandler key is removed
from each entry (src/lambda.py lines 664-669); every other field -
including the internal bgURL and the public publicURL, which processEnv
copied through unchanged - is retained in the body that both put_object
calls publish under ACL public-read (lines 686-692). -/
theorem c10_scrub_frame (e : EnvEntry) (prior : List EnvResult) (o : EntryOutcome)
    (r : EnvResult) (b : Bool) (h : processEnv prior e o = .ok (r, b)) :
    (scrub r).apiHandler = none ∧
    (scrub r).network = e.network ∧
    (scrub r).bgURL = e.bgURL ∧
    (scrub r).publicURL = e.publicURL ∧
    (scrub r).status = r.status ∧
    (scrub r).latestBlock = r.latestBlock ∧
    (scrub r).referenceBlock = r.referenceBlock ∧
    (scrub r).blocksBehind = r.blocksBehind ∧
    ∀ (datedKey : String) (body : List (String × List EnvResult)),
      (publishCalls datedKey body).map S3Put.body = [body, body] ∧
      (publishCalls datedKey body).map S3Put.acl = ["public-read", "public-read"] := by
  obtain ⟨hn, hb2, hp⟩ := processEnv_preserves_config e prior o r b h
  exact ⟨rfl, hn, hb2, hp, rfl, rfl, rfl, rfl, fun dk body => ⟨rfl, rfl⟩⟩

/-- Witness for c10_scrub_frame: a processed healthy entry keeps its bgURL
after the scrub and loses only the apiHandler key. -/
theorem c10_scrub_frame_witness :
    (scrub (healthResult ⟨"TestNet", some "it", some "pt", some (some "HandlerC")⟩ 5 11)).apiHandler
        = none ∧
    (scrub (healthResult ⟨"TestNet", some "it", some "pt", some (some "HandlerC")⟩ 5 11)).bgURL
        = some "it" :=
  ⟨(c10_scrub_frame ⟨"TestNet", some "it", some "pt", some (some "HandlerC")⟩ []
      ⟨.height 5, .parsedHeight 11⟩
      (healthResult ⟨"TestNet", some "it", some "pt", some (some "HandlerC")⟩ 5 11) true rfl).1,
   (c10_scrub_frame ⟨"TestNet", some "it", some "pt", some (some "HandlerC")⟩ []
      ⟨.height 5, .parsedHeight 11⟩
      (healthResult ⟨"TestNet", some "it", some "pt", some (some "HandlerC")⟩ 5 11) true rfl).2.2.1⟩
